import Mathlib

/-!
Verification of the eDNA_Sampler trigger engine (`Sampler` class,
`sampler.cpp` / `sampler.h`).

Shallow embedding conventions:
* C `float` values are modelled as rationals `ℚ` (the claims under study
  concern comparison/branch semantics, not rounding).
* C `uint32_t` values are modelled as `ℕ`; wherever the C code can
  overflow or wrap, the reduction `% 2^32` is written explicitly
  (`usub32` for unsigned subtraction, `% UINT32_MOD` after products).
* The fixed-size `uint8_t` condition arrays of length 3 (resp. the
  5-slot flow log) are modelled as functions `Fin 3 → Bool`
  (resp. `Fin 5 → ℕ`); the C code only ever stores boolean results
  (0/1) in the condition arrays.
* Stateful methods become pure functions `Sampler → ... → Sampler × α`.
-/

namespace EDNA

/-- `2^32`, the modulus of `uint32_t` arithmetic. -/
def UINT32_MOD : ℕ := 2 ^ 32

/-- `UINT_MAX` for 32-bit `unsigned int` (the ESP8266 target). -/
def UINT_MAX : ℕ := 2 ^ 32 - 1

/-- `FLT_MAX`, the largest finite single-precision float,
exactly `(2 - 2^-23) * 2^127`. -/
def FLT_MAX : ℚ := 2 ^ 128 - 2 ^ 104

/-- `ABS_ZERO_C` from `sampler.h`: `-273.15f`. -/
def ABS_ZERO_C : ℚ := -273.15

/-- `MAX_DEPTH` from `samplerGlobals.h` (MS5837 pressure sensor build). -/
def MAX_DEPTH : ℚ := 300

/-- `MIN_DEPTH` from `samplerGlobals.h`. -/
def MIN_DEPTH : ℚ := 1

/-- `MAX_TEMPERATURE` from `samplerGlobals.h`. -/
def MAX_TEMPERATURE : ℚ := 125

/-- `MIN_FLOWRATE` from `samplerGlobals.h`: `0.2f` L/min. -/
def MIN_FLOWRATE : ℚ := 0.2

/-- Pump command `PUMP_OFF` from `samplerGlobals.h`. -/
def PUMP_OFF : ℕ := 7

/-- Pump command `PUMP_ON` from `samplerGlobals.h`. -/
def PUMP_ON : ℕ := 8

/-- `NUM_FLOW_LOGS` from `sampler.h`. -/
def NUM_FLOW_LOGS : ℕ := 5

/-- 32-bit unsigned subtraction `a - b` as C computes it
(for `a b < 2^32` this is exactly the wrap-around difference). -/
def usub32 (a b : ℕ) : ℕ := (a + UINT32_MOD - b) % UINT32_MOD

/-- The private state of the `Sampler` class (`sampler.h`). -/
structure Sampler where
  minFlowrate : ℚ
  waitPumpEnd : ℕ
  targetFlowVol : ℕ
  waitPumpStart : ℕ
  temperatureBand : ℚ
  targetTemperature : ℚ
  depthBand : ℚ
  targetDepth : ℚ
  ticksPerLiter : ℕ
  maxFlowrate : ℚ
  startConditions : Fin 3 → Bool
  endConditions : Fin 3 → Bool
  startConditionMask : Fin 3 → Bool
  endConditionMask : Fin 3 → Bool
  diveStartTime : ℕ
  pumpStartTime : ℕ
  flowLog : Fin 5 → ℕ
  curFlowIdx : Fin 5
  curFlowrate : ℚ
deriving DecidableEq

/-- The member-initializer state of a freshly constructed `Sampler`
(`sampler.h` in-class initializers).  The condition and mask arrays are
uninitialized in the C++ source; they are taken as all-`false` here,
which only matters for the concrete example states below, never for the
universally quantified theorems. -/
def initState : Sampler where
  minFlowrate := MIN_FLOWRATE
  waitPumpEnd := UINT_MAX
  targetFlowVol := UINT_MAX
  waitPumpStart := UINT_MAX
  temperatureBand := 0
  targetTemperature := ABS_ZERO_C
  depthBand := 0
  targetDepth := FLT_MAX
  ticksPerLiter := 0
  maxFlowrate := 0
  startConditions := fun _ => false
  endConditions := fun _ => false
  startConditionMask := fun _ => false
  endConditionMask := fun _ => false
  diveStartTime := UINT_MAX
  pumpStartTime := UINT_MAX
  flowLog := fun _ => 0
  curFlowIdx := 0
  curFlowrate := 0

/-- `Sampler::setDeploymentConfig` (`sampler.cpp` lines 8-30).
Argument order matches the C++ signature.  `waitPumpStart * 60`,
`waitPumpEnd * 60` and `targetFlowVol * _ticksPerLiter` are `uint32_t`
products, hence the `% UINT32_MOD`. -/
def setDeploymentConfig (s : Sampler)
    (minFlowrate targetDepth depthBand targetTemperature temperatureBand : ℚ)
    (waitPumpEnd waitPumpStart targetFlowVol ticksPerLiter : ℕ) : Sampler :=
  { s with
    ticksPerLiter := ticksPerLiter
    targetDepth := if 0 < targetDepth then targetDepth else FLT_MAX
    depthBand := depthBand
    targetTemperature :=
      if ABS_ZERO_C < targetTemperature then targetTemperature else ABS_ZERO_C
    temperatureBand := temperatureBand
    waitPumpStart := waitPumpStart * 60 % UINT32_MOD
    minFlowrate := minFlowrate * (ticksPerLiter : ℚ)
    waitPumpEnd := if 0 < waitPumpEnd then waitPumpEnd * 60 % UINT32_MOD else UINT_MAX
    targetFlowVol :=
      if 0 < targetFlowVol then targetFlowVol * ticksPerLiter % UINT32_MOD else UINT_MAX }

/-- The start-condition mask recomputed by `Sampler::isValidUserConfig`
(`sampler.cpp` lines 34-43). -/
def startMaskOf (s : Sampler) (i : Fin 3) : Bool :=
  if i = 0 then
    decide (MIN_DEPTH ≤ s.targetDepth) && decide (s.targetDepth < MAX_DEPTH) &&
      decide (0 < s.depthBand)
  else if i = 1 then
    decide (ABS_ZERO_C < s.targetTemperature) &&
      decide (s.targetTemperature < MAX_TEMPERATURE) && decide (0 < s.temperatureBand)
  else
    decide (0 < s.waitPumpStart) && decide (s.waitPumpStart < UINT_MAX)

/-- The end-condition mask recomputed by `Sampler::isValidUserConfig`
(`sampler.cpp` lines 45-50). -/
def endMaskOf (s : Sampler) (i : Fin 3) : Bool :=
  if i = 0 then
    decide (0 < s.targetFlowVol) && decide (s.targetFlowVol < UINT_MAX)
  else if i = 1 then
    decide (0 < s.waitPumpEnd) && decide (s.waitPumpEnd < UINT_MAX)
  else
    decide (MIN_FLOWRATE * (s.ticksPerLiter : ℚ) ≤ s.minFlowrate)

/-- `Sampler::isValidUserConfig` (`sampler.cpp` lines 32-59): stores the
recomputed masks and returns `flowmeter-valid AND (some start mask set)
AND (some end mask set)`. -/
def isValidUserConfig (s : Sampler) : Sampler × Bool :=
  ({ s with startConditionMask := startMaskOf s, endConditionMask := endMaskOf s },
    decide (0 < s.ticksPerLiter) &&
      (startMaskOf s 0 || startMaskOf s 1 || startMaskOf s 2) &&
      (endMaskOf s 0 || endMaskOf s 1 || endMaskOf s 2))

/-- The live start-condition evaluation of `Sampler::checkPumpTrigger`
(`sampler.cpp` lines 63-68): depth band, temperature band, elapsed time
since dive start (guarded `uint32_t` subtraction). -/
def evalStartCond (s : Sampler) (depth temperature : ℚ) (time_now : ℕ)
    (i : Fin 3) : Bool :=
  if i = 0 then decide (|depth - s.targetDepth| ≤ s.depthBand)
  else if i = 1 then decide (|temperature - s.targetTemperature| ≤ s.temperatureBand)
  else
    decide (s.diveStartTime ≤ time_now) &&
      decide (s.waitPumpStart ≤ usub32 time_now s.diveStartTime)

/-- The live end-condition evaluation of `Sampler::checkPumpTrigger`
(`sampler.cpp` lines 70-76): volume pumped, pump duration, flow-rate
decay. -/
def evalEndCond (s : Sampler) (time_now ticks pumpDuration : ℕ) (i : Fin 3) : Bool :=
  if i = 0 then decide (s.targetFlowVol ≤ ticks)
  else if i = 1 then
    decide (s.pumpStartTime ≤ time_now) && decide (s.waitPumpEnd ≤ pumpDuration)
  else decide (0 < s.maxFlowrate) && decide (s.curFlowrate ≤ s.minFlowrate)

/-- `Sampler::checkPumpTrigger` (`sampler.cpp` lines 61-87): caches the
recomputed condition arrays, then combines OR over masked start
conditions with AND over negated masked end conditions, returning
`PUMP_ON` or `PUMP_OFF`. -/
def checkPumpTrigger (s : Sampler) (depth temperature : ℚ)
    (time_now ticks pumpDuration : ℕ) : Sampler × ℕ :=
  let sc := evalStartCond s depth temperature time_now
  let ec := evalEndCond s time_now ticks pumpDuration
  let pumpOn :=
    ((s.startConditionMask 0 && sc 0) || (s.startConditionMask 1 && sc 1) ||
        (s.startConditionMask 2 && sc 2)) &&
      !(s.endConditionMask 0 && ec 0) && !(s.endConditionMask 1 && ec 1) &&
      !(s.endConditionMask 2 && ec 2)
  ({ s with startConditions := sc, endConditions := ec },
    if pumpOn then PUMP_ON else PUMP_OFF)

/-- `Sampler::updateCurrentFlowrate` (`sampler.cpp` lines 89-95): write
the new cumulative sample, advance the circular index mod 5, and set
`_curFlowrate = (flowData - _flowLog[_curFlowIdx]) * 12.f` (unsigned
subtraction, then float multiplication). -/
def updateCurrentFlowrate (s : Sampler) (flowData : ℕ) : Sampler :=
  let log1 := Function.update s.flowLog s.curFlowIdx flowData
  let idx1 : Fin 5 := s.curFlowIdx + 1
  { s with
    flowLog := log1
    curFlowIdx := idx1
    curFlowrate := (usub32 flowData (log1 idx1) : ℚ) * 12 }

/-- `Sampler::getCurFlowrate` (`sampler.cpp` lines 97-100). -/
def getCurFlowrate (s : Sampler) : ℚ := s.curFlowrate

/-- `Sampler::computeMaxFlowrate` (`sampler.cpp` lines 102-107):
`_maxFlowrate = (flowData - _flowLog[_curFlowIdx]) * 12` where the whole
right-hand side is `uint32_t` arithmetic before conversion to float. -/
def computeMaxFlowrate (s : Sampler) (flowData : ℕ) : Sampler :=
  { s with
    maxFlowrate := ((usub32 flowData (s.flowLog s.curFlowIdx) * 12) % UINT32_MOD : ℕ) }

/-- `Sampler::setDiveStartTime` (`sampler.cpp` lines 110-113). -/
def setDiveStartTime (s : Sampler) (diveStartTime : ℕ) : Sampler :=
  { s with diveStartTime := diveStartTime }

/-- `Sampler::setPumpStartTime` (`sampler.cpp` lines 115-118). -/
def setPumpStartTime (s : Sampler) (pumpStartTime : ℕ) : Sampler :=
  { s with pumpStartTime := pumpStartTime }

/-- A state with the volume stop condition enabled (mask entry 0) and
configured to fire at any tick count, and the depth start condition
enabled; used as a concrete example below. -/
def stopState : Sampler :=
  { initState with
    targetFlowVol := 0
    startConditionMask := fun i => decide (i = 0)
    endConditionMask := fun i => decide (i = 0) }

/-- A state whose deployment was configured with `waitPumpStart = 0`
(stored as-is, no sentinel substitution); used as a concrete example
below. -/
def c6State : Sampler := { initState with waitPumpStart := 0 }

/-- A state with unit symmetric bands around target depth 0 m and target
temperature 0 °C; used as a concrete example below. -/
def c8State : Sampler :=
  { initState with
    targetDepth := 0
    depthBand := 1
    targetTemperature := 0
    temperatureBand := 1 }

/-- An existential over `Fin 3` is a three-way disjunction. -/
lemma exists_fin3_iff (p : Fin 3 → Prop) : (∃ i, p i) ↔ p 0 ∨ p 1 ∨ p 2 := by
  constructor
  · rintro ⟨i, h⟩
    fin_cases i
    · exact Or.inl h
    · exact Or.inr (Or.inl h)
    · exact Or.inr (Or.inr h)
  · rintro (h | h | h)
    exacts [⟨0, h⟩, ⟨1, h⟩, ⟨2, h⟩]

/-- Claim C1 (code bug, evaluated at the failing input): starting from
the constructor state and feeding `updateCurrentFlowrate` cumulative
ticks increasing at the constant rate r = 1 tick per 1 Hz call, the
flow-rate estimate after the 5th call — and still after the 9th call —
is 48 ticks/minute, not the r × 60 = 60 ticks/minute the claim states:
the slot read after the write-then-advance holds the sample from 4 calls
ago, not 5, contradicting the code's own comments (`average the flow
across 5 seconds`, `holds the value from 5 seconds ago`). -/
theorem C1_constant_rate_estimate_is_48 :
    (updateCurrentFlowrate (updateCurrentFlowrate (updateCurrentFlowrate
      (updateCurrentFlowrate (updateCurrentFlowrate initState 1) 2) 3) 4) 5).curFlowrate
        = 48 ∧
    (updateCurrentFlowrate (updateCurrentFlowrate (updateCurrentFlowrate
      (updateCurrentFlowrate (updateCurrentFlowrate (updateCurrentFlowrate
        (updateCurrentFlowrate (updateCurrentFlowrate (updateCurrentFlowrate
          initState 1) 2) 3) 4) 5) 6) 7) 8) 9).curFlowrate = 48 ∧
    (48 : ℚ) ≠ 1 * 60 := by
  refine ⟨?_, ?_, by norm_num⟩ <;>
    simp [updateCurrentFlowrate, initState, usub32, UINT32_MOD, Function.update] <;>
      norm_num

/-- Claim C2 counterexample: `setDeploymentConfig` called with
`waitPumpStart = 0` and `minFlowrate = 0` stores `0` — not a maximal
`never` sentinel — in `_waitPumpStart` and `_minFlowrate`. -/
theorem C2_counterexample :
    (setDeploymentConfig initState 0 10 1 10 1 5 0 5 100).waitPumpStart ≠ UINT_MAX ∧
    (setDeploymentConfig initState 0 10 1 10 1 5 0 5 100).waitPumpStart = 0 ∧
    (setDeploymentConfig initState 0 10 1 10 1 5 0 5 100).minFlowrate = 0 := by
  refine ⟨by decide, rfl, ?_⟩
  show (0 : ℚ) * (100 : ℕ) = 0
  norm_num

/-- Claim C2 as amended: `setDeploymentConfig` substitutes maximal
`never` sentinels only for `waitPumpEnd = 0` and `targetFlowVol = 0`;
a non-positive depth target is stored as the unreachable `FLT_MAX` and a
temperature target at or below absolute zero as the absolute-zero
sentinel; `waitPumpStart = 0` and `minFlowrate = 0` are stored as `0`
(scaled), and their conditions are made inert instead by the mask
recomputation of `isValidUserConfig`, which disables them. -/
theorem C2_sentinel_substitution (s : Sampler)
    (mfr td db tt tb : ℚ) (wpe wps tfv tpl : ℕ) :
    (wpe = 0 →
      (setDeploymentConfig s mfr td db tt tb wpe wps tfv tpl).waitPumpEnd = UINT_MAX) ∧
    (tfv = 0 →
      (setDeploymentConfig s mfr td db tt tb wpe wps tfv tpl).targetFlowVol = UINT_MAX) ∧
    (td ≤ 0 →
      (setDeploymentConfig s mfr td db tt tb wpe wps tfv tpl).targetDepth = FLT_MAX) ∧
    (tt ≤ ABS_ZERO_C →
      (setDeploymentConfig s mfr td db tt tb wpe wps tfv tpl).targetTemperature
        = ABS_ZERO_C) ∧
    (wps = 0 →
      (setDeploymentConfig s mfr td db tt tb wpe wps tfv tpl).waitPumpStart = 0 ∧
      startMaskOf (setDeploymentConfig s mfr td db tt tb wpe wps tfv tpl) 2 = false) ∧
    (mfr = 0 → 0 < tpl →
      (setDeploymentConfig s mfr td db tt tb wpe wps tfv tpl).minFlowrate = 0 ∧
      endMaskOf (setDeploymentConfig s mfr td db tt tb wpe wps tfv tpl) 2 = false) := by
  refine ⟨fun h => ?_, fun h => ?_, fun h => ?_, fun h => ?_, fun h => ⟨?_, ?_⟩,
    fun h htpl => ⟨?_, ?_⟩⟩
  · simp [setDeploymentConfig, h]
  · simp [setDeploymentConfig, h]
  · simp [setDeploymentConfig, not_lt.2 h]
  · simp [setDeploymentConfig, not_lt.2 h]
  · simp [setDeploymentConfig, h]
  · simp [startMaskOf, setDeploymentConfig, h]
  · simp [setDeploymentConfig, h]
  · have hpos : (0 : ℚ) < MIN_FLOWRATE * (tpl : ℚ) := by
      have : (0 : ℚ) < (tpl : ℚ) := by exact_mod_cast htpl
      have hm : (0 : ℚ) < MIN_FLOWRATE := by norm_num [MIN_FLOWRATE]
      positivity
    simp [endMaskOf, setDeploymentConfig, h, not_le.2 hpos]

/-- Witness for the amended claim C2 at a concrete configuration. -/
theorem C2_sentinel_substitution_witness :
    (setDeploymentConfig initState 0 (-1) 1 (-300) 1 0 0 0 100).waitPumpEnd = UINT_MAX ∧
    (setDeploymentConfig initState 0 (-1) 1 (-300) 1 0 0 0 100).targetFlowVol
      = UINT_MAX ∧
    (setDeploymentConfig initState 0 (-1) 1 (-300) 1 0 0 0 100).targetDepth = FLT_MAX ∧
    (setDeploymentConfig initState 0 (-1) 1 (-300) 1 0 0 0 100).targetTemperature
      = ABS_ZERO_C ∧
    (setDeploymentConfig initState 0 (-1) 1 (-300) 1 0 0 0 100).waitPumpStart = 0 ∧
    startMaskOf (setDeploymentConfig initState 0 (-1) 1 (-300) 1 0 0 0 100) 2
      = false ∧
    endMaskOf (setDeploymentConfig initState 0 (-1) 1 (-300) 1 0 0 0 100) 2
      = false := by
  have h := C2_sentinel_substitution initState 0 (-1) 1 (-300) 1 0 0 0 100
  have h5 := h.2.2.2.2.1 rfl
  have h6 := h.2.2.2.2.2 rfl (by norm_num)
  exact ⟨h.1 rfl, h.2.1 rfl, h.2.2.1 (by norm_num),
    h.2.2.2.1 (by norm_num [ABS_ZERO_C]), h5.1, h5.2, h6.2⟩

/-- Claim C3: for every stored configuration and mask state and every
input to `checkPumpTrigger`, if some enabled stop condition evaluates
true then the returned command is `PUMP_OFF`, regardless of the start
conditions (stop dominates). -/
theorem C3_stop_dominates (s : Sampler) (d t : ℚ) (now ticks pd : ℕ) (i : Fin 3)
    (hm : s.endConditionMask i = true)
    (hc : evalEndCond s now ticks pd i = true) :
    (checkPumpTrigger s d t now ticks pd).2 = PUMP_OFF := by
  fin_cases i <;> simp_all [checkPumpTrigger]

/-- Witness for claim C3: a state whose enabled volume stop condition
fires (target volume 0, 5 ticks pumped) yields `PUMP_OFF`. -/
theorem C3_stop_dominates_witness :
    (checkPumpTrigger stopState 0 0 0 5 0).2 = PUMP_OFF :=
  C3_stop_dominates stopState 0 0 0 5 0 0 (by decide) (by decide)

/-- Claim C4: `isValidUserConfig` returns true iff the flow-meter
calibration is positive, some recomputed start-mask entry is true, and
some recomputed stop-mask entry is true. -/
theorem C4_isValidUserConfig_iff (s : Sampler) :
    (isValidUserConfig s).2 = true ↔
      0 < s.ticksPerLiter ∧
        (∃ i, (isValidUserConfig s).1.startConditionMask i = true) ∧
        (∃ j, (isValidUserConfig s).1.endConditionMask j = true) := by
  simp [isValidUserConfig, exists_fin3_iff, and_assoc, or_assoc]

/-- Claim C5: when all three start-condition mask entries are false,
`checkPumpTrigger` returns `PUMP_OFF` on every input. -/
theorem C5_no_enabled_start_pump_off (s : Sampler) (d t : ℚ) (now ticks pd : ℕ)
    (h : ∀ i, s.startConditionMask i = false) :
    (checkPumpTrigger s d t now ticks pd).2 = PUMP_OFF := by
  simp [checkPumpTrigger, h 0, h 1, h 2]

/-- Witness for claim C5 at the constructor state (all masks false). -/
theorem C5_no_enabled_start_pump_off_witness :
    (checkPumpTrigger initState 0 0 0 0 0).2 = PUMP_OFF :=
  C5_no_enabled_start_pump_off initState 0 0 0 0 0 (fun _ => rfl)

/-- Claim C6 counterexample: at `time_now = UINT_MAX` the guard
`_diveStartTime <= time_now` passes even for the unset sentinel, so with
a stored `waitPumpStart` of 0 the dive-wait start condition evaluates
true, and with `pumpDuration ≥ waitPumpEnd` the duration stop condition
evaluates true, although both reference timestamps are unset. -/
theorem C6_counterexample :
    c6State.diveStartTime = UINT_MAX ∧
    evalStartCond c6State 0 0 UINT_MAX 2 = true ∧
    initState.pumpStartTime = UINT_MAX ∧
    evalEndCond initState UINT_MAX 0 UINT_MAX 1 = true := by
  refine ⟨rfl, ?_, rfl, ?_⟩ <;> simp [evalStartCond, evalEndCond, c6State, initState, usub32]

/-- Claim C6 as amended: for every `time_now` strictly below the unset
sentinel `UINT_MAX`, an unset `_diveStartTime` makes the dive-wait start
condition false and an unset `_pumpStartTime` makes the pump-duration
stop condition false, for every `pumpDuration`; at
`time_now = UINT_MAX` the guard passes and the conditions can fire. -/
theorem C6_unset_sentinel_conditions_false (s : Sampler) (d t : ℚ)
    (now ticks pd : ℕ) (hn : now < UINT_MAX) :
    (s.diveStartTime = UINT_MAX → evalStartCond s d t now 2 = false) ∧
    (s.pumpStartTime = UINT_MAX → evalEndCond s now ticks pd 1 = false) := by
  have hd : decide (UINT_MAX ≤ now) = false := by simp; omega
  constructor <;> intro h <;> simp [evalStartCond, evalEndCond, h, hd]

/-- Witness for the amended claim C6 at `time_now = 0`. -/
theorem C6_unset_sentinel_conditions_false_witness :
    evalStartCond initState 0 0 0 2 = false ∧ evalEndCond initState 0 0 0 1 = false := by
  have h := C6_unset_sentinel_conditions_false initState 0 0 0 0 0 (by decide)
  exact ⟨h.1 rfl, h.2 rfl⟩

/-- Claim C7: the unsigned subtraction `time_now - _diveStartTime` in
`checkPumpTrigger` sits behind the guard `_diveStartTime <= time_now`,
and under that guard it never wraps: it equals the mathematical
difference, so the dive-wait condition is exactly the comparison of the
configured wait against that difference. -/
theorem C7_guarded_subtraction_no_wrap (s : Sampler) (d t : ℚ) (now : ℕ)
    (hlt : now < UINT32_MOD) (hg : s.diveStartTime ≤ now) :
    usub32 now s.diveStartTime = now - s.diveStartTime ∧
    evalStartCond s d t now 2 = decide (s.waitPumpStart ≤ now - s.diveStartTime) := by
  have h1 : usub32 now s.diveStartTime = now - s.diveStartTime := by
    simp only [usub32, UINT32_MOD] at *
    omega
  refine ⟨h1, ?_⟩
  simp [evalStartCond, hg, h1]

/-- Witness for claim C7: dive started at t = 10, now = 50, elapsed 40. -/
theorem C7_guarded_subtraction_no_wrap_witness :
    usub32 50 (setDiveStartTime initState 10).diveStartTime = 40 := by
  have h := C7_guarded_subtraction_no_wrap (setDiveStartTime initState 10) 0 0 50
    (by decide) (by decide)
  simpa [setDiveStartTime] using h.1

/-- Claim C8: the depth and temperature start conditions are symmetric
band membership tests: a live value exactly `band` away from the target
satisfies the condition, and a value strictly more than `band` away does
not. -/
theorem C8_band_membership_symmetric (s : Sampler) (v w : ℚ) (now : ℕ)
    (hd : 0 < s.depthBand) (ht : 0 < s.temperatureBand) :
    ((|v - s.targetDepth| = s.depthBand → evalStartCond s v w now 0 = true) ∧
     (s.depthBand < |v - s.targetDepth| → evalStartCond s v w now 0 = false)) ∧
    ((|w - s.targetTemperature| = s.temperatureBand →
        evalStartCond s v w now 1 = true) ∧
     (s.temperatureBand < |w - s.targetTemperature| →
        evalStartCond s v w now 1 = false)) := by
  refine ⟨⟨fun h => ?_, fun h => ?_⟩, ⟨fun h => ?_, fun h => ?_⟩⟩ <;>
    simp [evalStartCond]
  · exact h.le
  · exact h
  · exact h.le
  · exact h

/-- Witness for claim C8: with target 0 and band 1, a reading of 1
(exactly one band away) is in band for both depth and temperature. -/
theorem C8_band_membership_symmetric_witness :
    evalStartCond c8State 1 1 0 0 = true ∧ evalStartCond c8State 1 1 0 1 = true := by
  have h := C8_band_membership_symmetric c8State 1 1 0 zero_lt_one zero_lt_one
  exact ⟨h.1.1 (by simp [c8State]), h.2.1 (by simp [c8State])⟩

/-- Claim C9: `checkPumpTrigger` mutates only the cached condition-state
arrays — every other field of the state is unchanged — and the returned
command is a deterministic function of the pre-call state and the five
inputs that does not depend on the cached arrays themselves. -/
theorem C9_checkPumpTrigger_frame (s : Sampler) (d t : ℚ) (now ticks pd : ℕ) :
    ((checkPumpTrigger s d t now ticks pd).1.minFlowrate = s.minFlowrate ∧
     (checkPumpTrigger s d t now ticks pd).1.waitPumpEnd = s.waitPumpEnd ∧
     (checkPumpTrigger s d t now ticks pd).1.targetFlowVol = s.targetFlowVol ∧
     (checkPumpTrigger s d t now ticks pd).1.waitPumpStart = s.waitPumpStart ∧
     (checkPumpTrigger s d t now ticks pd).1.temperatureBand = s.temperatureBand ∧
     (checkPumpTrigger s d t now ticks pd).1.targetTemperature = s.targetTemperature ∧
     (checkPumpTrigger s d t now ticks pd).1.depthBand = s.depthBand ∧
     (checkPumpTrigger s d t now ticks pd).1.targetDepth = s.targetDepth ∧
     (checkPumpTrigger s d t now ticks pd).1.ticksPerLiter = s.ticksPerLiter ∧
     (checkPumpTrigger s d t now ticks pd).1.maxFlowrate = s.maxFlowrate ∧
     (checkPumpTrigger s d t now ticks pd).1.startConditionMask = s.startConditionMask ∧
     (checkPumpTrigger s d t now ticks pd).1.endConditionMask = s.endConditionMask ∧
     (checkPumpTrigger s d t now ticks pd).1.diveStartTime = s.diveStartTime ∧
     (checkPumpTrigger s d t now ticks pd).1.pumpStartTime = s.pumpStartTime ∧
     (checkPumpTrigger s d t now ticks pd).1.flowLog = s.flowLog ∧
     (checkPumpTrigger s d t now ticks pd).1.curFlowIdx = s.curFlowIdx ∧
     (checkPumpTrigger s d t now ticks pd).1.curFlowrate = s.curFlowrate) ∧
    (checkPumpTrigger s d t now ticks pd).1.startConditions = evalStartCond s d t now ∧
    (checkPumpTrigger s d t now ticks pd).1.endConditions
      = evalEndCond s now ticks pd ∧
    (∀ c1 c2 e1 e2 : Fin 3 → Bool,
      (checkPumpTrigger { s with startConditions := c1, endConditions := e1 }
        d t now ticks pd).2 =
      (checkPumpTrigger { s with startConditions := c2, endConditions := e2 }
        d t now ticks pd).2) :=
  ⟨⟨rfl, rfl, rfl, rfl, rfl, rfl, rfl, rfl, rfl, rfl, rfl, rfl, rfl, rfl, rfl, rfl,
    rfl⟩, rfl, rfl, fun _ _ _ _ => rfl⟩

/-- Claim C10: `computeMaxFlowrate` writes only `_maxFlowrate` — set to
the `uint32_t` value `(flowData - _flowLog[_curFlowIdx]) * 12` — and
leaves the flow history, the circular index, the current flow-rate
estimate and every other field unchanged, so the next
`updateCurrentFlowrate` estimate is unperturbed. -/
theorem C10_computeMaxFlowrate_frame (s : Sampler) (f g : ℕ) :
    (computeMaxFlowrate s f).maxFlowrate =
      ((usub32 f (s.flowLog s.curFlowIdx) * 12) % UINT32_MOD : ℕ) ∧
    (computeMaxFlowrate s f).flowLog = s.flowLog ∧
    (computeMaxFlowrate s f).curFlowIdx = s.curFlowIdx ∧
    (computeMaxFlowrate s f).curFlowrate = s.curFlowrate ∧
    (computeMaxFlowrate s f).minFlowrate = s.minFlowrate ∧
    (computeMaxFlowrate s f).waitPumpEnd = s.waitPumpEnd ∧
    (computeMaxFlowrate s f).targetFlowVol = s.targetFlowVol ∧
    (computeMaxFlowrate s f).waitPumpStart = s.waitPumpStart ∧
    (computeMaxFlowrate s f).temperatureBand = s.temperatureBand ∧
    (computeMaxFlowrate s f).targetTemperature = s.targetTemperature ∧
    (computeMaxFlowrate s f).depthBand = s.depthBand ∧
    (computeMaxFlowrate s f).targetDepth = s.targetDepth ∧
    (computeMaxFlowrate s f).ticksPerLiter = s.ticksPerLiter ∧
    (computeMaxFlowrate s f).startConditions = s.startConditions ∧
    (computeMaxFlowrate s f).endConditions = s.endConditions ∧
    (computeMaxFlowrate s f).startConditionMask = s.startConditionMask ∧
    (computeMaxFlowrate s f).endConditionMask = s.endConditionMask ∧
    (computeMaxFlowrate s f).diveStartTime = s.diveStartTime ∧
    (computeMaxFlowrate s f).pumpStartTime = s.pumpStartTime ∧
    (updateCurrentFlowrate (computeMaxFlowrate s f) g).curFlowrate =
      (updateCurrentFlowrate s g).curFlowrate :=
  ⟨rfl, rfl, rfl, rfl, rfl, rfl, rfl, rfl, rfl, rfl, rfl, rfl, rfl, rfl, rfl, rfl, rfl,
    rfl, rfl, rfl⟩

end EDNA
